import Mathlib

/-!
Shallow embedding of the price-prediction pipeline of the DSS repository
(`src/ml_pipeline/preprocessing.py`, `src/ml_pipeline/predict.py`,
`src/ml_pipeline/train_model.py`, `src/savetocsv.py`), together with
theorems settling the frozen claims about it.

Numeric values are modelled as exact rationals (the source computes with
IEEE floats); timestamps as integer epoch seconds.  The one transcendental
step (`np.expm1` in `predict.py`) is modelled over the reals at the very
end of the prediction pipeline.
-/

namespace DSS

/-- Column lookup in a feature row (an ordered association list modelling a
one-row pandas DataFrame).  A column absent from the row reads as 0, which
is only ever exercised where the source's `fillna(0)` applies. -/
def getCol (row : List (String × ℚ)) (c : String) : ℚ :=
  match row.find? (fun e => e.1 = c) with
  | some e => e.2
  | none => 0

/-- Column-name list of a feature row (`X.columns`). -/
def colNames (row : List (String × ℚ)) : List String :=
  row.map Prod.fst

/-- Mean of a list of rationals (`pandas .mean()`); the empty case is
observationally 0 in every context the pipeline reaches it (a NaN mean is
later filled with 0 by `fillna(0)`). -/
def meanQ (l : List ℚ) : ℚ :=
  if l.isEmpty then 0 else l.sum / l.length

/-- 0/1 indicator value, as produced by `.astype(int)` on a boolean. -/
def indQ (b : Bool) : ℚ := if b then 1 else 0

/-- `True` test for an `Except` value (the call returned normally rather
than raising). -/
def exceptOk {ε α : Type} : Except ε α → Bool
  | .ok _ => true
  | .error _ => false

/-! ### String-level feature extraction (`preprocessing.py`) -/

/-- ASCII-alphanumeric test, the character class of the brand regex
`^([A-Za-z0-9]+)`. -/
def isAlnumChar (c : Char) : Bool := c.isAlpha || c.isDigit

/-- Brand extraction: `df["title"].str.extract(r"^([A-Za-z0-9]+)")`,
`fillna("UNKNOWN")`, `.str.upper()` — the leading alphanumeric run of the
title, upper-cased; `"UNKNOWN"` when the title does not start with an
alphanumeric character. -/
def extractBrand (title : String) : String :=
  let run := title.toList.takeWhile isAlnumChar
  if run.isEmpty then "UNKNOWN" else String.mk (run.map Char.toUpper)

/-- Does `l` start with `pat`? -/
def startsWithChars : List Char → List Char → Bool
  | _, [] => true
  | [], _ :: _ => false
  | a :: as, b :: bs => a = b && startsWithChars as bs

/-- Does `pat` occur as a contiguous sublist of `l`? -/
def containsChars : List Char → List Char → Bool
  | l, pat =>
    match l with
    | [] => pat.isEmpty
    | _ :: t => startsWithChars l pat || containsChars t pat

/-- Case-insensitive substring test:
`str.contains("ultra", case=False)`. -/
def containsCI (s pat : String) : Bool :=
  containsChars (s.toList.map Char.toLower) (pat.toList.map Char.toLower)

/-- Regex word-character class `\w` used by the `\bFE\b` pattern. -/
def isWordChar (c : Char) : Bool := isAlnumChar c || c = '_'

/-- Scan for a whole-word, case-insensitive occurrence of `fe`
(`str.contains(r"\bFE\b", case=False)`), over the lower-cased character
list; `prev` is the character immediately before the current position. -/
def hasWordFEAux (prev : Option Char) : List Char → Bool
  | [] => false
  | c :: rest =>
    (c = 'f' &&
      (match rest with
       | 'e' :: rest2 =>
         (match prev with
          | none => true
          | some p => !isWordChar p) &&
         (match rest2 with
          | [] => true
          | d :: _ => !isWordChar d)
       | _ => false)) ||
    hasWordFEAux (some c) rest

/-- Whole-word case-insensitive `FE` flag of a title. -/
def hasWordFE (s : String) : Bool :=
  hasWordFEAux none (s.toList.map Char.toLower)

/-! ### Timestamps and recency -/

/-- The `timestamp` field of an incoming record, as seen after
`pd.to_datetime(..., errors="coerce")`: absent, unparseable (NaT), or a
valid instant (epoch seconds). -/
inductive TsField : Type
  | missing : TsField
  | garbled : TsField
  | valid : ℤ → TsField

/-- Whole elapsed days between `t` and the processing instant `now`
(`(datetime.now() - ts).dt.days`): the floor of the elapsed-seconds
difference divided by 86400 (pandas `Timedelta.days` floors). -/
def daysBetween (now t : ℤ) : ℤ :=
  ⌊((now - t : ℤ) : ℚ) / 86400⌋

/-- Training-path `days_since` (`preprocessing.py` lines 50–55): a missing
timestamp column or an unparseable value is replaced by `now`
(`fillna(pd.Timestamp.now())`) before taking elapsed days. -/
def daysSinceTrain (now : ℤ) : TsField → ℤ
  | .missing => daysBetween now now
  | .garbled => daysBetween now now
  | .valid t => daysBetween now t

/-- Inference-path `days_since` value as it lands in the selected feature
row (`preprocessing.py` lines 158–163 plus the later `fillna(0)`): a
missing field defaults to `datetime.now()`; an unparseable field stays NaT,
making the subtraction NaN, which `X = df[features].fillna(0)` fills with
0; a valid instant gives floored elapsed days. -/
def daysSinceInf (now : ℤ) : TsField → ℚ
  | .missing => (daysBetween now now : ℚ)
  | .garbled => 0
  | .valid t => (daysBetween now t : ℚ)

/-! ### Records, persisted artifacts, model state -/

/-- A single product record submitted for prediction
(`preprocess_single_record`'s `record` dict), after field coercions:
`title` as a string, `platform` as a string, `rating` as an optional
number (`pd.to_numeric(..., errors="coerce")` result), `timestamp` as a
`TsField`. -/
structure Record : Type where
  title : String
  platform : String
  rating : Option ℚ
  timestamp : TsField

/-- One row of the persisted `model/brand_stats.csv`: brand token, mean
price of the brand's training rows, and sample standard deviation (absent
— an empty CSV cell — for single-row brands, where pandas `std` is NaN). -/
structure BrandStat : Type where
  brand : String
  mean : ℚ
  std : Option ℚ

/-- The persisted `model/scaler.pkl` payload: the fitted `StandardScaler`
(per-column centre `mean_` and divisor `scale_`) together with the numeric
column-name list stored beside it. -/
structure ScalerArtifact : Type where
  columns : List String
  mean : List (String × ℚ)
  scale : List (String × ℚ)

/-- A persisted fitted model (`model/{name}_model.pkl`): its optional
`feature_names_in_` attribute and its prediction function on a one-row
feature frame. -/
structure TrainedModel : Type where
  featureNames : Option (List String)
  predictFn : List (String × ℚ) → ℚ

/-- The on-disk artifact state the pipeline reads and writes: the platform
encoder's fitted category list (`model/platform_encoder.pkl`), the scaler
artifact (`model/scaler.pkl`), the brand-statistics table
(`model/brand_stats.csv`), and the named model files.  `none` models an
absent file. -/
structure ModelState : Type where
  encoder : Option (List String)
  scaler : Option ScalerArtifact
  brandStats : Option (List BrandStat)
  models : List (String × TrainedModel)

/-! ### Single-record feature engineering (`preprocess_single_record`) -/

/-- Look up one scaler parameter by column name; the stored artifact pairs
each numeric column with its parameter. -/
def scalerParam (l : List (String × ℚ)) (c : String) (d : ℚ) : ℚ :=
  match l.find? (fun e => e.1 = c) with
  | some e => e.2
  | none => d

/-- `X[numeric_cols] = scaler.transform(X[numeric_cols])`: each column
listed in the artifact is replaced by `(x - mean_) / scale_`; all other
columns pass through unchanged. -/
def applyScaler (sc : ScalerArtifact) (row : List (String × ℚ)) : List (String × ℚ) :=
  row.map (fun e =>
    if sc.columns.contains e.1 then
      (e.1, (e.2 - scalerParam sc.mean e.1 0) / scalerParam sc.scale e.1 1)
    else e)

/-- Inference-time brand-statistics merge (`preprocessing.py` lines
178–192): with a persisted table, a found brand contributes its mean and
(NaN-filled-to-0) std; a missing brand falls back to the mean of the
table's `brand_mean` column and std 0; with no persisted table at all the
last-resort fallback is `(0, 0)`. -/
def brandFeatures (bstats : Option (List BrandStat)) (brand : String) : ℚ × ℚ :=
  match bstats with
  | some tbl =>
    match tbl.find? (fun b => b.brand = brand) with
    | some b => (b.mean, (b.std).getD 0)
    | none => (meanQ (tbl.map (fun b => b.mean)), 0)
  | none => (0, 0)

/-- The engineered (pre-scaling) single-record feature row: the seven base
features in source order followed by one `platform_<cat>` indicator per
encoder category (`handle_unknown="ignore"` one-hot: 1 exactly at the
matching category, all zeros for an unseen platform). -/
def engineerSingleRecord (cats : List String) (bstats : Option (List BrandStat))
    (now : ℤ) (r : Record) : List (String × ℚ) :=
  let brand := extractBrand r.title
  let bf := brandFeatures bstats brand
  [("rating", r.rating.getD 0),
   ("days_since", daysSinceInf now r.timestamp),
   ("is_ultra", indQ (containsCI r.title "ultra")),
   ("is_fe", indQ (hasWordFE r.title)),
   ("title_len", (r.title.length : ℚ)),
   ("brand_mean", bf.1),
   ("brand_std", bf.2)] ++
  cats.map (fun c => ("platform_" ++ c, indQ (r.platform = c)))

/-- `preprocess_single_record` (`preprocessing.py`): fail fast with a
message naming the missing file when the platform encoder or the scaler
artifact is absent; otherwise engineer the feature row and apply the
persisted scaler.  A missing brand-statistics table is not checked here —
`brandFeatures` silently falls back to zeros. -/
def preprocess_single_record (st : ModelState) (now : ℤ) (r : Record) :
    Except String (List (String × ℚ)) :=
  match st.encoder with
  | none => .error "Missing encoder: model/platform_encoder.pkl"
  | some cats =>
    match st.scaler with
    | none => .error "Missing scaler: model/scaler.pkl"
    | some sc => .ok (applyScaler sc (engineerSingleRecord cats st.brandStats now r))

/-! ### Prediction (`predict.py`) -/

/-- Relative path of a named model artifact
(`model/{model_name}_model.pkl`). -/
def modelPath (name : String) : String :=
  "model/" ++ name ++ "_model.pkl"

/-- Feature alignment (`predict.py` lines 41–46): when the model records a
`feature_names_in_` list, append a zero column for every expected column
absent from the row, then select the expected columns in their order;
without a recorded list the row passes through unchanged. -/
def alignFeatures (expected : Option (List String)) (row : List (String × ℚ)) :
    List (String × ℚ) :=
  match expected with
  | none => row
  | some exp =>
    exp.map (fun c => (c, getCol
      (row ++ (exp.filter (fun c => decide (c ∉ colNames row))).map (fun c => (c, (0 : ℚ)))) c))

/-- The aligned feature frame handed to `model.predict` in
`predict_price`: model-file check, preprocessing, then alignment. -/
def alignedX (st : ModelState) (now : ℤ) (r : Record) (name : String) :
    Except String (List (String × ℚ)) :=
  match st.models.find? (fun p => p.1 = name) with
  | none => .error ("❌ Model file not found: " ++ modelPath name)
  | some p =>
    match preprocess_single_record st now r with
    | .error e => .error e
    | .ok x => .ok (alignFeatures p.2.featureNames x)

/-- `predict_price` up to (and including) the model invocation: the
log-space prediction `pred_log = model.predict(X)[0]`. -/
def predict_price_core (st : ModelState) (now : ℤ) (r : Record) (name : String) :
    Except String ℚ :=
  match st.models.find? (fun p => p.1 = name) with
  | none => .error ("❌ Model file not found: " ++ modelPath name)
  | some p =>
    match alignedX st now r name with
    | .error e => .error e
    | .ok x => .ok (p.2.predictFn x)

/-- `np.expm1` over the reals. -/
noncomputable def expm1R (x : ℝ) : ℝ := Real.exp x - 1

/-- Python `round(·, 2)` over the reals: round to the nearest hundredth
(the half-even/half-up difference is immaterial off exact half-cent
values, which the claims never exercise). -/
noncomputable def roundTo2R (x : ℝ) : ℝ := ((round (x * 100) : ℤ) : ℝ) / 100

/-- `predict_price` (`predict.py`): the log-space prediction inverted with
`expm1` and rounded to 2 decimals. -/
noncomputable def predict_price (st : ModelState) (now : ℤ) (r : Record) (name : String) :
    Except String ℝ :=
  (predict_price_core st now r name).map (fun p => roundTo2R (expm1R p))

/-! ### Price cleaning (`train_model.py` lines 64–76, `preprocessing.py`
lines 27–33) -/

/-- Value of a digit run as a natural number. -/
def digitsVal (ds : List Char) : ℕ :=
  ds.foldl (fun acc c => acc * 10 + (c.toNat - '0'.toNat)) 0

/-- Numeric value of an integer-part / fraction-part digit pair. -/
def decimalVal (ints fracs : List Char) : ℚ :=
  (digitsVal ints : ℚ) + (digitsVal fracs : ℚ) / (10 : ℚ) ^ fracs.length

/-- First match of `(\d+\.?\d*)` in a character list: skip to the first
digit, take the digit run, then an optional dot followed by a (possibly
empty) digit run. -/
def extractFirstNum (cs : List Char) : Option (List Char × List Char) :=
  match cs.dropWhile (fun c => !c.isDigit) with
  | [] => none
  | rest =>
    let ints := rest.takeWhile Char.isDigit
    let after := rest.dropWhile Char.isDigit
    match after with
    | '.' :: tail => some (ints, tail.takeWhile Char.isDigit)
    | _ => some (ints, [])

/-- Training-path price cleaning of `train_model.py`: remove every `₹` and
every comma, extract the first numeric run via `(\d+\.?\d*)`, and read it
as a number; `none` models the NaN of a failed match. -/
def cleanPriceTrain (s : String) : Option ℚ :=
  (extractFirstNum ((s.toList.filter (fun c => c ≠ '₹')).filter (fun c => c ≠ ','))).map
    (fun p => decimalVal p.1 p.2)

/-- Row-retention rule of `train_model.py` lines 73–76: a row survives
cleaning exactly when its price parses (`dropna`) to a strictly positive
number (`df[df["price"] > 0]`). -/
def keepRowTrain (s : String) : Bool :=
  match cleanPriceTrain s with
  | none => false
  | some p => decide (0 < p)

/-- Strict decimal scan of a whole character list (`pd.to_numeric`): an
optional digit run, an optional dot with a further digit run, nothing
else, and at least one digit overall; returns the integer-part and
fraction-part digit runs. -/
def parseDecSplit (cs : List Char) : Option (List Char × List Char) :=
  match cs.dropWhile Char.isDigit with
  | [] => if cs.isEmpty then none else some (cs, [])
  | '.' :: tail =>
    if tail.dropWhile Char.isDigit ≠ [] then none
    else if (cs.takeWhile Char.isDigit).isEmpty && (tail.takeWhile Char.isDigit).isEmpty
    then none
    else some (cs.takeWhile Char.isDigit, tail.takeWhile Char.isDigit)
  | _ => none

/-- Training-path price cleaning of `preprocessing.py` lines 27–33:
delete every character outside `[0-9.]` (`str.replace(r"[^\d.]", "")`)
and coerce the remainder with `pd.to_numeric(..., errors="coerce")`. -/
def cleanPricePre (s : String) : Option ℚ :=
  (parseDecSplit (s.toList.filter (fun c => c.isDigit || c = '.'))).map
    (fun p => decimalVal p.1 p.2)

/-- Row-retention rule of `preprocessing.py` lines 31–33. -/
def keepRowPre (s : String) : Bool :=
  match cleanPricePre s with
  | none => false
  | some p => decide (0 < p)

/-! ### Training batch state effects (`clean_and_feature_engineer`) -/

/-- One cleaned training row (after price cleaning and outlier trimming):
title, numeric price, optional numeric rating, platform, timestamp
field. -/
structure CleanRow : Type where
  title : String
  price : ℚ
  rating : Option ℚ
  platform : String
  timestamp : TsField

/-- Brand token of a training row. -/
def brandOf (r : CleanRow) : String := extractBrand r.title

/-- Lexicographic codepoint comparison of character lists (the string
order Python and pandas sort by). -/
def charListLe : List Char → List Char → Bool
  | [], _ => true
  | _ :: _, [] => false
  | a :: as, b :: bs =>
    if a.toNat < b.toNat then true
    else if b.toNat < a.toNat then false
    else charListLe as bs

/-- Lexicographic string comparison. -/
def strLe (a b : String) : Bool := charListLe a.toList b.toList

/-- Insertion into a sorted list of strings. -/
def insertSorted (s : String) : List String → List String
  | [] => [s]
  | x :: xs => if strLe s x then s :: x :: xs else x :: insertSorted s xs

/-- Sort a list of strings (the sorted iteration order of a pandas
`groupby` / the sorted `categories_` of a fitted `OneHotEncoder`). -/
def sortStrings (l : List String) : List String :=
  l.foldr insertSorted []

/-- Distinct values of a list of strings (kept in last-occurrence order;
always sorted immediately afterwards, so only the value set matters). -/
def dedupStrings : List String → List String
  | [] => []
  | x :: xs =>
    if (dedupStrings xs).contains x then dedupStrings xs else x :: dedupStrings xs

/-- Sample variance with denominator `n - 1` (pandas `std` squared). -/
def sampleVar (l : List ℚ) : ℚ :=
  (l.map (fun x => (x - meanQ l) ^ 2)).sum / ((l.length : ℚ) - 1)

/-- Computable stand-in for the real square root on rationals
(`Int.sqrt`/`Nat.sqrt` on numerator and denominator).  pandas computes the
real square root of the sample variance here; no theorem in this
development depends on the numeric value of a standard deviation or of a
scaler divisor, so the approximation is never observed by a claim. -/
def sqrtQ (q : ℚ) : ℚ :=
  (Int.sqrt q.num : ℚ) / (Nat.sqrt q.den : ℚ)

/-- `df.groupby("brand")["price"].agg(["mean", "std"])` over the cleaned
batch, in sorted brand order — the table written to
`model/brand_stats.csv`.  A single-row brand has NaN std (empty CSV
cell), modelled as `none`. -/
def brandStatsOf (rows : List CleanRow) : List BrandStat :=
  (sortStrings (dedupStrings (rows.map brandOf))).map (fun b =>
    { brand := b,
      mean := meanQ ((rows.filter (fun r => brandOf r = b)).map (fun r => r.price)),
      std :=
        if ((rows.filter (fun r => brandOf r = b)).map (fun r => r.price)).length ≤ 1
        then none
        else some (sqrtQ (sampleVar
          ((rows.filter (fun r => brandOf r = b)).map (fun r => r.price)))) })

/-- `df["price"].mean()` over the cleaned batch — the training-path
fallback fill for `brand_mean` (`preprocessing.py` line 74). -/
def trainGlobalMean (rows : List CleanRow) : ℚ :=
  meanQ (rows.map (fun r => r.price))

/-- `OneHotEncoder(...).fit` on the batch's platform column: the sorted
list of distinct platform values becomes `categories_`. -/
def fitEncoder (rows : List CleanRow) : List String :=
  sortStrings (dedupStrings (rows.map (fun r => r.platform)))

/-- The five numeric feature values of one training row after the
brand-statistics merge (`base_features` minus the two indicator flags):
used only to fit the scaler. -/
def trainNumRow (tbl : List BrandStat) (gm : ℚ) (now : ℤ) (r : CleanRow) :
    List (String × ℚ) :=
  let bm :=
    match tbl.find? (fun b => b.brand = brandOf r) with
    | some b => b.mean
    | none => gm
  let bs :=
    match tbl.find? (fun b => b.brand = brandOf r) with
    | some b => (b.std).getD 0
    | none => 0
  [("rating", r.rating.getD 0),
   ("days_since", (daysSinceTrain now r.timestamp : ℚ)),
   ("title_len", (r.title.length : ℚ)),
   ("brand_mean", bm),
   ("brand_std", bs)]

/-- The numeric-column list stored beside the scaler. -/
def numericCols : List String :=
  ["rating", "days_since", "title_len", "brand_mean", "brand_std"]

/-- One named column of a list of feature rows. -/
def columnOf (rows : List (List (String × ℚ))) (c : String) : List ℚ :=
  rows.map (fun row => getCol row c)

/-- Population variance (denominator `n`), as `StandardScaler` uses. -/
def popVar (l : List ℚ) : ℚ :=
  meanQ (l.map (fun x => (x - meanQ l) ^ 2))

/-- `StandardScaler` divisor: the square root of the population variance,
with exact zeros replaced by 1 (`_handle_zeros_in_scale`); `sqrtQ` stands
in for the real square root, unobserved by any claim. -/
def scaleOfVar (v : ℚ) : ℚ :=
  if v = 0 then 1 else sqrtQ v

/-- `StandardScaler().fit` on the five numeric training columns plus the
column list, as persisted to `model/scaler.pkl`
(`preprocessing.py` lines 100–106). -/
def fitScaler (now : ℤ) (rows : List CleanRow) : ScalerArtifact :=
  let tbl := brandStatsOf rows
  let gm := trainGlobalMean rows
  let x := rows.map (trainNumRow tbl gm now)
  { columns := numericCols,
    mean := numericCols.map (fun c => (c, meanQ (columnOf x c))),
    scale := numericCols.map (fun c => (c, scaleOfVar (popVar (columnOf x c)))) }

/-- The artifact-state effect of one `clean_and_feature_engineer` run on
the cleaned batch (`preprocessing.py` lines 62–106): the brand-statistics
table is recomputed from the batch and written (overwriting); the platform
encoder is loaded and reused when its file exists, and only fit from the
batch and dumped when it does not; the scaler is refit from the batch and
dumped (overwriting).  Model files are untouched here. -/
def clean_and_feature_engineer_state (st : ModelState) (now : ℤ)
    (rows : List CleanRow) : ModelState :=
  let tbl := brandStatsOf rows
  let enc :=
    match st.encoder with
    | some e => e
    | none => fitEncoder rows
  { encoder := some enc,
    scaler := some (fitScaler now rows),
    brandStats := some tbl,
    models := st.models }

/-! ### The training loop (`train_model.py` lines 142–150) -/

/-- The attempted fit-and-score outcome of one model: either the fitted
model with its `(RMSE, R²)` pair, or the raised exception's message.  The
underlying sklearn fit/score is external numeric code; the loop's control
flow is what is embedded. -/
abbrev TrainItem : Type := String × Except String (TrainedModel × ℚ × ℚ)

/-- Result of a `train_and_save` model loop: the model files dumped, the
performance table if it was written, and the propagated exception if one
was raised. -/
structure TrainRunResult : Type where
  savedModels : List (String × TrainedModel)
  perfFile : Option (List (String × ℚ × ℚ))
  err : Option String

/-- The `for name, model in models.items()` loop of `train_and_save`:
each model is fit, scored, appended to `results`, and dumped, in order;
there is no per-model exception handling, so a failure propagates at once
— models already dumped stay on disk, later models are not attempted, and
`model_performance.csv` (written only after the loop) is not written. -/
def runModelsLoop : List TrainItem → List (String × TrainedModel) →
    List (String × ℚ × ℚ) → TrainRunResult
  | [], saved, results =>
    { savedModels := saved, perfFile := some results, err := none }
  | (_, .error e) :: _, saved, _ =>
    { savedModels := saved, perfFile := none, err := some e }
  | (n, .ok (m, rmse, r2)) :: rest, saved, results =>
    runModelsLoop rest (saved ++ [(n, m)]) (results ++ [(n, rmse, r2)])

/-- The model-training phase of `train_and_save`, starting from no saved
models and an empty results list. -/
def train_models (items : List TrainItem) : TrainRunResult :=
  runModelsLoop items [] []

/-! ### Record normalization (`savetocsv.py`) -/

/-- One raw scraped record as handed to `save_scraped_data`: every field
optional (a Python dict), with `some ""` a present-but-empty value. -/
structure RawItem : Type where
  title : Option String
  name : Option String
  price : Option String
  rating : Option String
  url : Option String
  link : Option String
  platform : Option String

/-- Python `a or b` over optional strings: an absent or empty (falsy)
first operand falls through to the second. -/
def pyOr (a b : Option String) : Option String :=
  match a with
  | some s => if s = "" then b else some s
  | none => b

/-- The canonical row shape written to the batch file. -/
structure NormalizedRecord : Type where
  title : String
  price : String
  rating : String
  url : String
  platform : String
  timestamp : String

/-- Field normalization of one raw item (`savetocsv.py` lines 25–34). -/
def normalizeItem (rowStamp : String) (it : RawItem) : NormalizedRecord :=
  { title := (pyOr it.title it.name).getD "N/A",
    price := ((it.price).getD "").trim,
    rating := (it.rating).getD "",
    url := (pyOr it.url it.link).getD "N/A",
    platform := (it.platform).getD "Unknown",
    timestamp := rowStamp }

/-- `save_scraped_data` (`savetocsv.py`): an empty input list returns
`None` before any directory or file operation; otherwise one new
timestamped batch file is written containing exactly the normalized rows,
and its path is returned.  A `some` result models the one file write; a
`none` result models that no file was written. -/
def save_scraped_data (data : List RawItem) (rowStamp fileStamp : String) :
    Option (String × List NormalizedRecord) :=
  if data.isEmpty then none
  else some ("outputs/scraped_results_" ++ fileStamp ++ ".csv",
             data.map (normalizeItem rowStamp))

/-! ### Helper lemmas on feature-row lookups -/

theorem getCol_append_of_found {X L : List (String × ℚ)} {c : String}
    (h : (X.find? (fun e => e.1 = c)).isSome) :
    getCol (X ++ L) c = getCol X c := by
  unfold getCol
  rw [List.find?_append]
  cases hf : X.find? (fun e => e.1 = c) with
  | none => rw [hf] at h; simp at h
  | some e => simp [Option.or]

theorem getCol_append_of_none {X L : List (String × ℚ)} {c : String}
    (h : X.find? (fun e => e.1 = c) = none) :
    getCol (X ++ L) c = getCol L c := by
  unfold getCol
  rw [List.find?_append, h]
  simp [Option.or]

theorem getCol_of_all_zero {L : List (String × ℚ)} {c : String}
    (h : ∀ e ∈ L, e.2 = 0) : getCol L c = 0 := by
  unfold getCol
  cases hf : L.find? (fun e => e.1 = c) with
  | none => rfl
  | some e => exact h e (List.mem_of_find?_eq_some hf)

theorem getCol_map_pair {exp : List String} {f : String → ℚ} {c : String}
    (hc : c ∈ exp) :
    getCol (exp.map (fun x => (x, f x))) c = f c := by
  induction exp with
  | nil => cases hc
  | cons x xs ih =>
    by_cases hx : x = c
    · subst hx
      unfold getCol
      rw [List.map_cons, List.find?_cons_of_pos _ (by simp)]
    · rcases List.mem_cons.mp hc with h | h
      · exact absurd h.symm hx
      · unfold getCol
        rw [List.map_cons, List.find?_cons_of_neg _ (by simp [hx])]
        exact ih h

theorem find?_isSome_of_mem_colNames {X : List (String × ℚ)} {c : String}
    (h : c ∈ colNames X) :
    (X.find? (fun e => e.1 = c)).isSome := by
  rcases List.mem_map.mp h with ⟨e, he, hfst⟩
  cases hf : X.find? (fun e => e.1 = c) with
  | some _ => rfl
  | none =>
    exact absurd (by simpa using hfst) (by simpa using List.find?_eq_none.mp hf e he)

theorem find?_eq_none_of_not_mem_colNames {X : List (String × ℚ)} {c : String}
    (h : c ∉ colNames X) :
    X.find? (fun e => e.1 = c) = none := by
  refine List.find?_eq_none.mpr (fun e he => ?_)
  simp only [decide_eq_true_eq]
  intro hfst
  exact h (List.mem_map.mpr ⟨e, he, hfst⟩)

theorem cleanPriceTrain_eval (s : String) (ints fracs : List Char)
    (h : extractFirstNum ((s.toList.filter (fun c => c ≠ '₹')).filter (fun c => c ≠ ',')) =
      some (ints, fracs)) :
    cleanPriceTrain s = some (decimalVal ints fracs) := by
  unfold cleanPriceTrain
  rw [h]
  rfl

theorem cleanPricePre_eval (s : String) (ints fracs : List Char)
    (h : parseDecSplit (s.toList.filter (fun c => c.isDigit || c = '.')) =
      some (ints, fracs)) :
    cleanPricePre s = some (decimalVal ints fracs) := by
  unfold cleanPricePre
  rw [h]
  rfl

/-! ### Claim C5 -/

/-- Claim C5: training-path price cleaning strips the currency symbol and
thousands separators and extracts the first numeric run by pattern match,
so `"₹80,999"`, `"80999"` and `"₹ 80,999.00"` each clean to `80999`, and a
row is kept in the training batch exactly when its price string parses to
a strictly positive number (`"N/A"` is dropped) — for the `train_model.py`
cleaner and, on the same inputs, for the `preprocessing.py` cleaner. -/
theorem C5_price_cleaning :
    cleanPriceTrain "₹80,999" = some 80999 ∧
    cleanPriceTrain "80999" = some 80999 ∧
    cleanPriceTrain "₹ 80,999.00" = some 80999 ∧
    cleanPriceTrain "N/A" = none ∧
    keepRowTrain "N/A" = false ∧
    cleanPricePre "₹80,999" = some 80999 ∧
    cleanPricePre "80999" = some 80999 ∧
    cleanPricePre "₹ 80,999.00" = some 80999 ∧
    keepRowPre "N/A" = false ∧
    (∀ s : String, keepRowTrain s = true ↔
      ∃ p : ℚ, cleanPriceTrain s = some p ∧ 0 < p) ∧
    (∀ s : String, keepRowPre s = true ↔
      ∃ p : ℚ, cleanPricePre s = some p ∧ 0 < p) := by
  have hd9 : digitsVal ['8', '0', '9', '9', '9'] = 80999 := by decide
  have hd0 : digitsVal ['0', '0'] = 0 := by decide
  have hdn : digitsVal [] = 0 := rfl
  refine ⟨?_, ?_, ?_, rfl, rfl, ?_, ?_, ?_, rfl, fun s => ?_, fun s => ?_⟩
  · rw [cleanPriceTrain_eval "₹80,999" ['8', '0', '9', '9', '9'] [] (by decide)]
    norm_num [decimalVal, hd9, hdn]
  · rw [cleanPriceTrain_eval "80999" ['8', '0', '9', '9', '9'] [] (by decide)]
    norm_num [decimalVal, hd9, hdn]
  · rw [cleanPriceTrain_eval "₹ 80,999.00" ['8', '0', '9', '9', '9'] ['0', '0'] (by decide)]
    norm_num [decimalVal, hd9, hd0]
  · rw [cleanPricePre_eval "₹80,999" ['8', '0', '9', '9', '9'] [] (by decide)]
    norm_num [decimalVal, hd9, hdn]
  · rw [cleanPricePre_eval "80999" ['8', '0', '9', '9', '9'] [] (by decide)]
    norm_num [decimalVal, hd9, hdn]
  · rw [cleanPricePre_eval "₹ 80,999.00" ['8', '0', '9', '9', '9'] ['0', '0'] (by decide)]
    norm_num [decimalVal, hd9, hd0]
  · unfold keepRowTrain
    cases h : cleanPriceTrain s with
    | none => simp
    | some p => simp [h]
  · unfold keepRowPre
    cases h : cleanPricePre s with
    | none => simp
    | some p => simp [h]

/-! ### Claim C10 -/

/-- Claim C10: called with an empty list of raw records, the record
normalizer returns `None` and writes no batch file (a `some` result is the
one file write the function can perform, so `none` leaves the output
directory unchanged). -/
theorem C10_empty_input_writes_nothing (rowStamp fileStamp : String) :
    save_scraped_data [] rowStamp fileStamp = none := rfl

/-! ### Claim C1 -/

/-- Claim C1: whenever the loaded model records an expected-feature-name
list, the feature row handed to the model is exactly that list of columns
in that order, each expected column carrying the engineered value when the
engineered row has it and 0 when it does not — so the model never receives
a feature vector whose column set or order differs from training. -/
theorem C1_feature_alignment
    (st : ModelState) (now : ℤ) (r : Record) (name : String)
    (m : String × TrainedModel) (exp : List String) (X : List (String × ℚ))
    (hm : st.models.find? (fun p => p.1 = name) = some m)
    (hf : m.2.featureNames = some exp)
    (hx : preprocess_single_record st now r = .ok X) :
    alignedX st now r name = .ok (alignFeatures (some exp) X) ∧
    colNames (alignFeatures (some exp) X) = exp ∧
    (∀ c ∈ exp, getCol (alignFeatures (some exp) X) c =
      if c ∈ colNames X then getCol X c else 0) := by
  refine ⟨?_, ?_, ?_⟩
  · simp only [alignedX, hm, hx, hf]
  · simp [alignFeatures, colNames, List.map_map, Function.comp_def]
  · intro c hc
    unfold alignFeatures
    rw [getCol_map_pair hc]
    by_cases h : c ∈ colNames X
    · rw [if_pos h]
      exact getCol_append_of_found (find?_isSome_of_mem_colNames h)
    · rw [if_neg h]
      rw [getCol_append_of_none (find?_eq_none_of_not_mem_colNames h)]
      refine getCol_of_all_zero (fun e he => ?_)
      rcases List.mem_map.mp he with ⟨c', _, hce⟩
      rw [← hce]

/-- Concrete artifact fixtures for the claim-C1 witness. -/
def scC1 : ScalerArtifact :=
  { columns := numericCols, mean := [], scale := [] }

def mC1 : TrainedModel :=
  { featureNames := some ["rating", "platform_Amazon", "extra_col"],
    predictFn := fun _ => 0 }

def stC1 : ModelState :=
  { encoder := some ["Amazon"], scaler := some scC1,
    brandStats := none, models := [("rf", mC1)] }

def recC1 : Record :=
  { title := "Samsung Galaxy S25 Ultra 5G", platform := "Amazon",
    rating := some (9/2), timestamp := .missing }

/-- Witness for claim C1 at a concrete state, record and model. -/
theorem C1_feature_alignment_witness :
    alignedX stC1 0 recC1 "rf" =
      .ok (alignFeatures (some ["rating", "platform_Amazon", "extra_col"])
        (applyScaler scC1 (engineerSingleRecord ["Amazon"] none 0 recC1))) ∧
    colNames (alignFeatures (some ["rating", "platform_Amazon", "extra_col"])
        (applyScaler scC1 (engineerSingleRecord ["Amazon"] none 0 recC1))) =
      ["rating", "platform_Amazon", "extra_col"] ∧
    (∀ c ∈ ["rating", "platform_Amazon", "extra_col"],
      getCol (alignFeatures (some ["rating", "platform_Amazon", "extra_col"])
        (applyScaler scC1 (engineerSingleRecord ["Amazon"] none 0 recC1))) c =
      if c ∈ colNames (applyScaler scC1 (engineerSingleRecord ["Amazon"] none 0 recC1))
      then getCol (applyScaler scC1 (engineerSingleRecord ["Amazon"] none 0 recC1)) c
      else 0) :=
  C1_feature_alignment stC1 0 recC1 "rf" ("rf", mC1)
    ["rating", "platform_Amazon", "extra_col"]
    (applyScaler scC1 (engineerSingleRecord ["Amazon"] none 0 recC1))
    rfl rfl rfl

theorem getCol_eq_zero_of_fst {L : List (String × ℚ)} {c : String}
    (h : ∀ e ∈ L, e.1 = c → e.2 = 0) : getCol L c = 0 := by
  unfold getCol
  cases hf : L.find? (fun e => e.1 = c) with
  | none => rfl
  | some e =>
    exact h e (List.mem_of_find?_eq_some hf) (by simpa using List.find?_some hf)

theorem head_p_of_eq_platform_col {s : String} {c : String}
    (heq : s = "platform_" ++ c) : s.data.head? = some 'p' := by
  rw [heq, String.data_append]
  rfl

/-! ### Claim C4 -/

/-- Claim C4: for a record whose platform value is not among the platform
categories known to the persisted encoder, every one-hot platform
indicator column of the engineered feature row is 0, and
`preprocess_single_record` returns normally rather than raising. -/
theorem C4_unseen_platform
    (st : ModelState) (now : ℤ) (r : Record) (cats : List String) (sc : ScalerArtifact)
    (henc : st.encoder = some cats) (hsc : st.scaler = some sc)
    (hp : r.platform ∉ cats) :
    (∀ c ∈ cats,
      getCol (engineerSingleRecord cats st.brandStats now r) ("platform_" ++ c) = 0) ∧
    preprocess_single_record st now r =
      .ok (applyScaler sc (engineerSingleRecord cats st.brandStats now r)) := by
  constructor
  · intro c hc
    refine getCol_eq_zero_of_fst (fun e he hfst => ?_)
    simp only [engineerSingleRecord] at he
    rcases List.mem_append.mp he with hbase | hplat
    · have hp1 : e.1.data.head? = some 'p' := head_p_of_eq_platform_col hfst
      simp only [List.mem_cons, List.not_mem_nil, or_false] at hbase
      rcases hbase with h1 | h1 | h1 | h1 | h1 | h1 | h1
      · subst h1
        exact absurd (show ("rating" : String).data.head? = some 'p' from hp1) (by decide)
      · subst h1
        exact absurd (show ("days_since" : String).data.head? = some 'p' from hp1) (by decide)
      · subst h1
        exact absurd (show ("is_ultra" : String).data.head? = some 'p' from hp1) (by decide)
      · subst h1
        exact absurd (show ("is_fe" : String).data.head? = some 'p' from hp1) (by decide)
      · subst h1
        exact absurd (show ("title_len" : String).data.head? = some 'p' from hp1) (by decide)
      · subst h1
        exact absurd (show ("brand_mean" : String).data.head? = some 'p' from hp1) (by decide)
      · subst h1
        exact absurd (show ("brand_std" : String).data.head? = some 'p' from hp1) (by decide)
    · rcases List.mem_map.mp hplat with ⟨c', hc', he'⟩
      have hne : r.platform ≠ c' := fun hh => hp (hh ▸ hc')
      rw [← he']
      simp [indQ, hne]
  · simp only [preprocess_single_record, henc, hsc]

/-- Concrete fixtures for the claim-C4 witness. -/
def scC4 : ScalerArtifact :=
  { columns := numericCols, mean := [], scale := [] }

def stC4 : ModelState :=
  { encoder := some ["Amazon", "Flipkart"], scaler := some scC4,
    brandStats := none, models := [] }

def recC4 : Record :=
  { title := "Samsung Galaxy S25 FE", platform := "Snapdeal",
    rating := some 4, timestamp := .missing }

/-- Witness for claim C4: a record from the unseen platform `"Snapdeal"`
against an encoder that knows `"Amazon"` and `"Flipkart"`. -/
theorem C4_unseen_platform_witness :
    (∀ c ∈ ["Amazon", "Flipkart"],
      getCol (engineerSingleRecord ["Amazon", "Flipkart"] stC4.brandStats 0 recC4)
        ("platform_" ++ c) = 0) ∧
    preprocess_single_record stC4 0 recC4 =
      .ok (applyScaler scC4 (engineerSingleRecord ["Amazon", "Flipkart"] stC4.brandStats 0 recC4)) :=
  C4_unseen_platform stC4 0 recC4 ["Amazon", "Flipkart"] scC4 rfl rfl (by decide)

/-! ### Claim C2 -/

/-- Claim C2 (amended): single-record inference requires the platform
encoder, the scaler and the model file, failing with an error naming the
absent file when one of those three is missing; but a missing
brand-statistics table does not cause a failure — inference proceeds with
the zero fallback. -/
theorem C2_artifact_requirements :
    (∀ (st : ModelState) (now : ℤ) (r : Record), st.encoder = none →
      preprocess_single_record st now r =
        .error "Missing encoder: model/platform_encoder.pkl") ∧
    (∀ (st : ModelState) (now : ℤ) (r : Record) (cats : List String),
      st.encoder = some cats → st.scaler = none →
      preprocess_single_record st now r = .error "Missing scaler: model/scaler.pkl") ∧
    (∀ (st : ModelState) (now : ℤ) (r : Record) (name : String),
      st.models.find? (fun p => p.1 = name) = none →
      predict_price_core st now r name =
        .error ("❌ Model file not found: " ++ modelPath name)) ∧
    (∀ (st : ModelState) (now : ℤ) (r : Record) (cats : List String) (sc : ScalerArtifact),
      st.encoder = some cats → st.scaler = some sc → st.brandStats = none →
      preprocess_single_record st now r =
        .ok (applyScaler sc (engineerSingleRecord cats none now r))) := by
  refine ⟨fun st now r h => ?_, fun st now r cats h1 h2 => ?_,
          fun st now r name h => ?_, fun st now r cats sc h1 h2 h3 => ?_⟩
  · simp only [preprocess_single_record, h]
  · simp only [preprocess_single_record, h1, h2]
  · simp only [predict_price_core, h]
  · simp only [preprocess_single_record, h1, h2, h3]

/-- Concrete fixtures for the claim-C2 witness. -/
def scC2 : ScalerArtifact :=
  { columns := numericCols, mean := [], scale := [] }

def recC2 : Record :=
  { title := "Samsung Galaxy S25", platform := "Amazon",
    rating := none, timestamp := .missing }

/-- Witness for claim C2 at concrete states missing each artifact in
turn, plus the brand-statistics fallback state. -/
theorem C2_artifact_requirements_witness :
    preprocess_single_record ⟨none, none, none, []⟩ 0 recC2 =
      .error "Missing encoder: model/platform_encoder.pkl" ∧
    preprocess_single_record ⟨some ["Amazon"], none, none, []⟩ 0 recC2 =
      .error "Missing scaler: model/scaler.pkl" ∧
    predict_price_core ⟨none, none, none, []⟩ 0 recC2 "rf" =
      .error ("❌ Model file not found: " ++ modelPath "rf") ∧
    preprocess_single_record ⟨some ["Amazon"], some scC2, none, []⟩ 0 recC2 =
      .ok (applyScaler scC2 (engineerSingleRecord ["Amazon"] none 0 recC2)) :=
  ⟨C2_artifact_requirements.1 ⟨none, none, none, []⟩ 0 recC2 rfl,
   C2_artifact_requirements.2.1 ⟨some ["Amazon"], none, none, []⟩ 0 recC2 ["Amazon"] rfl rfl,
   C2_artifact_requirements.2.2.1 ⟨none, none, none, []⟩ 0 recC2 "rf" rfl,
   C2_artifact_requirements.2.2.2 ⟨some ["Amazon"], some scC2, none, []⟩ 0 recC2
     ["Amazon"] scC2 rfl rfl rfl⟩

/-- Counterexample to claim C2 as stated: with the encoder, the scaler and
the model file all present but the brand-statistics table absent,
single-record preprocessing and the prediction core both return normally
instead of failing — there is a partial-load mode for the brand table. -/
theorem C2_counterexample :
    exceptOk (preprocess_single_record
      ⟨some ["Amazon"], some ⟨numericCols, [], []⟩, none,
       [("rf", ⟨none, fun _ => 0⟩)]⟩ 0
      ⟨"Samsung Galaxy S25", "Amazon", none, .missing⟩) = true ∧
    exceptOk (predict_price_core
      ⟨some ["Amazon"], some ⟨numericCols, [], []⟩, none,
       [("rf", ⟨none, fun _ => 0⟩)]⟩ 0
      ⟨"Samsung Galaxy S25", "Amazon", none, .missing⟩ "rf") = true :=
  ⟨rfl, rfl⟩

/-! ### Claim C9 -/

/-- Claim C9 (amended): a garbled (unparseable) timestamp makes the
engineered `days_since` equal 0 on both the training and the inference
path, as does a missing one; a parseable timestamp gives the floored
elapsed whole days between it and processing time — nonnegative for past
timestamps but strictly negative (not 0) for future ones. -/
theorem C9_days_since
    (now t : ℤ) (cats : List String) (bs : Option (List BrandStat))
    (title platform : String) (rating : Option ℚ) :
    daysSinceTrain now .garbled = 0 ∧
    daysSinceTrain now .missing = 0 ∧
    getCol (engineerSingleRecord cats bs now ⟨title, platform, rating, .garbled⟩)
      "days_since" = 0 ∧
    getCol (engineerSingleRecord cats bs now ⟨title, platform, rating, .valid t⟩)
      "days_since" = (daysBetween now t : ℚ) ∧
    daysSinceTrain now (.valid t) = daysBetween now t ∧
    (t ≤ now → 0 ≤ daysBetween now t) ∧
    (now < t → daysBetween now t < 0) := by
  refine ⟨?_, ?_, ?_, ?_, rfl, ?_, ?_⟩
  · simp [daysSinceTrain, daysBetween]
  · simp [daysSinceTrain, daysBetween]
  · simp [engineerSingleRecord, getCol, daysSinceInf]
  · simp [engineerSingleRecord, getCol, daysSinceInf]
  · intro h
    refine Int.le_floor.mpr ?_
    push_cast
    exact div_nonneg (by exact_mod_cast sub_nonneg.mpr h) (by norm_num)
  · intro h
    refine Int.floor_lt.mpr ?_
    push_cast
    exact div_neg_of_neg_of_pos (by exact_mod_cast sub_neg.mpr h) (by norm_num)

/-- Witness for claim C9: a one-day-old timestamp gives a nonnegative
`days_since`, while a one-day-future timestamp gives a negative one. -/
theorem C9_days_since_witness :
    0 ≤ daysBetween 0 (-86400) ∧ daysBetween 86400 172800 < 0 :=
  ⟨(C9_days_since 0 (-86400) [] none "t" "p" none).2.2.2.2.2.1 (by decide),
   (C9_days_since 86400 172800 [] none "t" "p" none).2.2.2.2.2.2 (by decide)⟩

/-- Counterexample to claim C9 as stated: for a record timestamped exactly
one day in the future of processing time, the engineered `days_since` is
`-1` on both paths, not the claimed 0 — future timestamps are not
defaulted to "now". -/
theorem C9_counterexample :
    daysSinceTrain 0 (.valid 86400) = -1 ∧
    getCol (engineerSingleRecord ["Amazon"] none 0
      ⟨"Samsung Galaxy S25", "Amazon", none, .valid 86400⟩) "days_since" = -1 ∧
    (-1 : ℤ) ≠ 0 := by
  have hfl : daysBetween 0 86400 = -1 := by
    unfold daysBetween
    norm_num
  refine ⟨?_, ?_, by decide⟩
  · simpa [daysSinceTrain] using hfl
  · simp [engineerSingleRecord, getCol, daysSinceInf, hfl]

/-! ### Claim C3 -/

/-- Claim C3 (amended): for an inference record whose extracted brand
token is absent from the persisted brand-statistics table, the engineered
`brand_mean` is the arithmetic mean of the table's `brand_mean` column
(the unweighted mean of per-brand means, which can differ from the
training batch's global mean price), `brand_std` is 0, and no error is
raised. -/
theorem C3_unknown_brand_fallback
    (st : ModelState) (now : ℤ) (r : Record) (cats : List String)
    (sc : ScalerArtifact) (tbl : List BrandStat)
    (henc : st.encoder = some cats) (hsc : st.scaler = some sc)
    (htbl : st.brandStats = some tbl)
    (hmiss : tbl.find? (fun b => b.brand = extractBrand r.title) = none) :
    getCol (engineerSingleRecord cats st.brandStats now r) "brand_mean" =
      meanQ (tbl.map (fun b => b.mean)) ∧
    getCol (engineerSingleRecord cats st.brandStats now r) "brand_std" = 0 ∧
    preprocess_single_record st now r =
      .ok (applyScaler sc (engineerSingleRecord cats st.brandStats now r)) := by
  refine ⟨?_, ?_, ?_⟩
  · simp [engineerSingleRecord, getCol, brandFeatures, htbl, hmiss]
  · simp [engineerSingleRecord, getCol, brandFeatures, htbl, hmiss]
  · simp only [preprocess_single_record, henc, hsc]

/-- Concrete fixtures for the claim-C3 witness. -/
def scC3 : ScalerArtifact :=
  { columns := numericCols, mean := [], scale := [] }

def tblC3 : List BrandStat :=
  [{ brand := "APPLE", mean := 50, std := some 5 },
   { brand := "SAMSUNG", mean := 30, std := none }]

def stC3 : ModelState :=
  { encoder := some ["Amazon"], scaler := some scC3,
    brandStats := some tblC3, models := [] }

def recC3 : Record :=
  { title := "NONEXISTENTBRAND phone", platform := "Amazon",
    rating := none, timestamp := .missing }

/-- Witness for claim C3: the brand `"NONEXISTENTBRAND"` is absent from a
concrete two-brand table, and the fallback applies without an error. -/
theorem C3_unknown_brand_fallback_witness :
    getCol (engineerSingleRecord ["Amazon"] stC3.brandStats 0 recC3) "brand_mean" =
      meanQ (tblC3.map (fun b => b.mean)) ∧
    getCol (engineerSingleRecord ["Amazon"] stC3.brandStats 0 recC3) "brand_std" = 0 ∧
    preprocess_single_record stC3 0 recC3 =
      .ok (applyScaler scC3 (engineerSingleRecord ["Amazon"] stC3.brandStats 0 recC3)) :=
  C3_unknown_brand_fallback stC3 0 recC3 ["Amazon"] scC3 tblC3 rfl rfl rfl rfl

/-- A concrete cleaned training batch with unequal brand group sizes: two
`AA`-brand rows priced 10 and one `B`-brand row priced 40. -/
def rowsC3 : List CleanRow :=
  [{ title := "AA one", price := 10, rating := none, platform := "Amazon",
     timestamp := .missing },
   { title := "AA two", price := 10, rating := none, platform := "Amazon",
     timestamp := .missing },
   { title := "B fortyphone", price := 40, rating := none, platform := "Amazon",
     timestamp := .missing }]

def recC3x : Record :=
  { title := "ZZZ thing", platform := "Amazon", rating := none, timestamp := .missing }

/-- Counterexample to claim C3 as stated: training on `rowsC3` persists the
table `AA ↦ 10, B ↦ 40`; an unknown brand at inference then gets
`brand_mean = 25` (the unweighted mean of the two brand means), whereas the
training batch's global mean price is `(10+10+40)/3 = 20` — the fallback is
not the global mean price. -/
theorem C3_counterexample :
    getCol (engineerSingleRecord ["Amazon"] (some (brandStatsOf rowsC3)) 0 recC3x)
      "brand_mean" = 25 ∧
    trainGlobalMean rowsC3 = 20 ∧
    ¬ (25 : ℚ) = 20 := by
  have hbr : extractBrand "ZZZ thing" = "ZZZ" := by decide
  have hmiss2 : (brandStatsOf rowsC3).find? (fun b => b.brand = "ZZZ") = none := rfl
  refine ⟨?_, ?_, by norm_num⟩
  · rw [show getCol (engineerSingleRecord ["Amazon"] (some (brandStatsOf rowsC3)) 0 recC3x)
        "brand_mean" =
        (brandFeatures (some (brandStatsOf rowsC3)) (extractBrand "ZZZ thing")).1 from by
      simp [engineerSingleRecord, getCol, recC3x]]
    rw [hbr]
    simp only [brandFeatures, hmiss2]
    rw [show (brandStatsOf rowsC3).map (fun b => b.mean) =
        [meanQ [(10 : ℚ), 10], meanQ [(40 : ℚ)]] from rfl]
    rw [show meanQ [(10 : ℚ), 10] = 10 from by norm_num [meanQ],
        show meanQ [(40 : ℚ)] = 40 from by norm_num [meanQ]]
    norm_num [meanQ]
  · norm_num [trainGlobalMean, rowsC3, meanQ]

/-! ### Claim C6 -/

/-- Claim C6 (amended): every training run refits the scaler and the
brand-statistics table from the current cleaned batch and persists them,
overwriting prior state, and leaves the model files alone; the platform
encoder, however, is fit from the batch and persisted only when no encoder
file exists — an existing fitted encoder is loaded and applied unchanged
rather than refit or overwritten. -/
theorem C6_training_persistence
    (st : ModelState) (now : ℤ) (rows : List CleanRow) :
    (clean_and_feature_engineer_state st now rows).brandStats =
      some (brandStatsOf rows) ∧
    (clean_and_feature_engineer_state st now rows).scaler =
      some (fitScaler now rows) ∧
    (clean_and_feature_engineer_state st now rows).models = st.models ∧
    (∀ e, st.encoder = some e →
      (clean_and_feature_engineer_state st now rows).encoder = some e) ∧
    (st.encoder = none →
      (clean_and_feature_engineer_state st now rows).encoder =
        some (fitEncoder rows)) := by
  refine ⟨rfl, rfl, rfl, fun e he => ?_, fun he => ?_⟩
  · simp [clean_and_feature_engineer_state, he]
  · simp [clean_and_feature_engineer_state, he]

/-- Concrete fixtures for the claim-C6 witness. -/
def rowsC6w : List CleanRow :=
  [{ title := "Samsung phone", price := 10, rating := none, platform := "Amazon",
     timestamp := .missing }]

def stC6w : ModelState :=
  { encoder := some ["Amazon"], scaler := none, brandStats := none, models := [] }

def stC6n : ModelState :=
  { encoder := none, scaler := none, brandStats := none, models := [] }

/-- Witness for claim C6: one run against a prior encoder (kept as is) and
one against no prior encoder (freshly fit). -/
theorem C6_training_persistence_witness :
    (clean_and_feature_engineer_state stC6w 0 rowsC6w).brandStats =
      some (brandStatsOf rowsC6w) ∧
    (clean_and_feature_engineer_state stC6w 0 rowsC6w).scaler =
      some (fitScaler 0 rowsC6w) ∧
    (clean_and_feature_engineer_state stC6w 0 rowsC6w).encoder = some ["Amazon"] ∧
    (clean_and_feature_engineer_state stC6n 0 rowsC6w).encoder =
      some (fitEncoder rowsC6w) :=
  ⟨(C6_training_persistence stC6w 0 rowsC6w).1,
   (C6_training_persistence stC6w 0 rowsC6w).2.1,
   (C6_training_persistence stC6w 0 rowsC6w).2.2.2.1 ["Amazon"] rfl,
   (C6_training_persistence stC6n 0 rowsC6w).2.2.2.2 rfl⟩

/-- A one-row batch from a platform unknown to the prior encoder. -/
def rowsC6 : List CleanRow :=
  [{ title := "Pixel phone", price := 10, rating := none, platform := "Flipkart",
     timestamp := .missing }]

def stC6 : ModelState :=
  { encoder := some ["Amazon"], scaler := none, brandStats := none, models := [] }

/-- Counterexample to claim C6 as stated: with a prior persisted encoder
fit on `["Amazon"]`, a training run over a batch whose only platform is
`"Flipkart"` keeps the old encoder — the persisted encoder is neither fit
from the current batch nor overwritten. -/
theorem C6_counterexample :
    (clean_and_feature_engineer_state stC6 0 rowsC6).encoder = some ["Amazon"] ∧
    fitEncoder rowsC6 = ["Flipkart"] ∧
    ¬ (clean_and_feature_engineer_state stC6 0 rowsC6).encoder =
        some (fitEncoder rowsC6) := by
  refine ⟨rfl, by decide, ?_⟩
  rw [show (clean_and_feature_engineer_state stC6 0 rowsC6).encoder =
        some ["Amazon"] from rfl,
      show fitEncoder rowsC6 = ["Flipkart"] from by decide]
  decide

/-! ### Claim C7 -/

theorem runModelsLoop_ok_prefix
    (pre : List (String × (TrainedModel × ℚ × ℚ))) (items : List TrainItem)
    (saved : List (String × TrainedModel)) (results : List (String × ℚ × ℚ)) :
    runModelsLoop (pre.map (fun p => ((p.1, Except.ok p.2) : TrainItem)) ++ items)
        saved results =
      runModelsLoop items (saved ++ pre.map (fun p => (p.1, p.2.1)))
        (results ++ pre.map (fun p => (p.1, p.2.2))) := by
  induction pre generalizing saved results with
  | nil => simp
  | cons h t ih =>
    obtain ⟨n', m', r1, r2⟩ := h
    simp only [List.map_cons, List.cons_append]
    rw [show runModelsLoop (((n', Except.ok (m', r1, r2)) : TrainItem) ::
          (t.map (fun p => ((p.1, Except.ok p.2) : TrainItem)) ++ items)) saved results =
        runModelsLoop (t.map (fun p => ((p.1, Except.ok p.2) : TrainItem)) ++ items)
          (saved ++ [(n', m')]) (results ++ [(n', r1, r2)]) from rfl]
    rw [ih]
    simp [List.append_assoc]

/-- Claim C7 (amended): the training loop processes the models
sequentially with no per-model exception handling — every model before
the first fit/score failure is fit, scored and persisted, but the first
failure aborts the run with that error, so later models are not trained or
persisted and the performance file is not written; only a failure-free run
persists every model and writes the performance file. -/
theorem C7_training_loop
    (pre : List (String × (TrainedModel × ℚ × ℚ))) (n : String) (e : String)
    (rest : List TrainItem) :
    train_models (pre.map (fun p => ((p.1, Except.ok p.2) : TrainItem)) ++
        ((n, Except.error e) : TrainItem) :: rest) =
      { savedModels := pre.map (fun p => (p.1, p.2.1)),
        perfFile := none, err := some e } ∧
    train_models (pre.map (fun p => ((p.1, Except.ok p.2) : TrainItem))) =
      { savedModels := pre.map (fun p => (p.1, p.2.1)),
        perfFile := some (pre.map (fun p => (p.1, p.2.2))),
        err := none } := by
  constructor
  · have h1 := runModelsLoop_ok_prefix pre (((n, Except.error e) : TrainItem) :: rest) [] []
    rw [train_models, h1]
    simp [runModelsLoop]
  · have h2 := runModelsLoop_ok_prefix pre ([] : List TrainItem) [] []
    rw [List.append_nil] at h2
    rw [train_models, h2]
    simp [runModelsLoop]

/-- A fitted linear-baseline stand-in for the claim-C7 counterexample. -/
def mC7 : TrainedModel := { featureNames := none, predictFn := fun _ => 0 }

/-- Counterexample to claim C7 as stated: when the first model's fit
fails, the whole run aborts with that error — the second model is never
trained or persisted and no performance file is written, so the failure is
not isolated to the failing model. -/
theorem C7_counterexample :
    train_models [("rf", Except.error "fit failed"), ("lr", Except.ok (mC7, 0, 0))] =
      { savedModels := [], perfFile := none, err := some "fit failed" } ∧
    (train_models [("rf", Except.error "fit failed"),
        ("lr", Except.ok (mC7, 0, 0))]).savedModels.find? (fun p => p.1 = "lr") = none :=
  ⟨rfl, rfl⟩

/-! ### Claim C8 -/

/-- Claim C8 (amended): whenever the prediction core returns a log-space
prediction `p`, `predict_price` returns `expm1 p` rounded to 2 decimals;
the result is non-negative whenever `p` is non-negative, but nothing
clamps it — a negative log-space prediction yields a negative price. -/
theorem C8_prediction_value
    (st : ModelState) (now : ℤ) (r : Record) (name : String) (p : ℚ)
    (h : predict_price_core st now r name = .ok p) :
    predict_price st now r name = .ok (roundTo2R (expm1R ((p : ℚ) : ℝ))) ∧
    (0 ≤ p → 0 ≤ roundTo2R (expm1R ((p : ℚ) : ℝ))) := by
  constructor
  · unfold predict_price
    rw [h]
    rfl
  · intro hp
    have h1 : (0 : ℝ) ≤ expm1R ((p : ℚ) : ℝ) := by
      unfold expm1R
      have hx : (1 : ℝ) ≤ Real.exp ((p : ℚ) : ℝ) :=
        Real.one_le_exp (by exact_mod_cast hp)
      linarith
    unfold roundTo2R
    have h2 : (0 : ℤ) ≤ round (expm1R ((p : ℚ) : ℝ) * 100) := by
      rw [round_eq]
      refine Int.le_floor.mpr ?_
      push_cast
      nlinarith
    have h3 : (0 : ℝ) ≤ ((round (expm1R ((p : ℚ) : ℝ) * 100) : ℤ) : ℝ) := by
      exact_mod_cast h2
    exact div_nonneg h3 (by norm_num)

/-- Concrete fixtures for the claim-C8 witness. -/
def scC8 : ScalerArtifact :=
  { columns := numericCols, mean := [], scale := [] }

def mC8 : TrainedModel := { featureNames := none, predictFn := fun _ => 0 }

def stC8 : ModelState :=
  { encoder := some ["Amazon"], scaler := some scC8,
    brandStats := none, models := [("rf", mC8)] }

def recC8 : Record :=
  { title := "Samsung Galaxy S25", platform := "Amazon",
    rating := none, timestamp := .missing }

/-- Witness for claim C8: a model predicting log-price 0 yields the
rounded `expm1 0` and a non-negative price. -/
theorem C8_prediction_value_witness :
    predict_price stC8 0 recC8 "rf" = .ok (roundTo2R (expm1R ((0 : ℚ) : ℝ))) ∧
    0 ≤ roundTo2R (expm1R ((0 : ℚ) : ℝ)) :=
  ⟨(C8_prediction_value stC8 0 recC8 "rf" 0 rfl).1,
   (C8_prediction_value stC8 0 recC8 "rf" 0 rfl).2 le_rfl⟩

/-- Fixtures for the claim-C8 counterexample: a model whose log-space
prediction is `-1`. -/
def mC8n : TrainedModel := { featureNames := none, predictFn := fun _ => -1 }

def stC8n : ModelState :=
  { encoder := some ["Amazon"], scaler := some scC8,
    brandStats := none, models := [("rf", mC8n)] }

def recC8n : Record :=
  { title := "Samsung Galaxy S25", platform := "Amazon",
    rating := none, timestamp := .missing }

/-- Counterexample to claim C8 as stated: a prediction call that returns
normally with a negative price — the model predicts log-price `-1`, and
`round(expm1(-1), 2) ≈ -0.63 < 0`; the claimed non-negativity does not
hold. -/
theorem C8_counterexample :
    predict_price stC8n 0 recC8n "rf" = .ok (roundTo2R (expm1R ((-1 : ℚ) : ℝ))) ∧
    roundTo2R (expm1R ((-1 : ℚ) : ℝ)) < 0 := by
  constructor
  · unfold predict_price
    rw [show predict_price_core stC8n 0 recC8n "rf" = .ok (-1) from rfl]
    rfl
  · have hc : ((-1 : ℚ) : ℝ) = -1 := by norm_num
    have hmul : Real.exp (-(1 : ℝ)) * Real.exp 1 = 1 := by
      rw [Real.exp_neg]
      field_simp
    have h2 : (2 : ℝ) < Real.exp 1 :=
      lt_trans (by norm_num) Real.exp_one_gt_d9
    have hexp : Real.exp (-(1 : ℝ)) < 1 / 2 := by
      nlinarith [Real.exp_pos (-(1 : ℝ))]
    have hlt : expm1R ((-1 : ℚ) : ℝ) * 100 + 1 / 2 < 0 := by
      unfold expm1R
      rw [hc]
      nlinarith
    have h3 : round (expm1R ((-1 : ℚ) : ℝ) * 100) < 0 := by
      rw [round_eq]
      refine Int.floor_lt.mpr ?_
      push_cast
      linarith
    have h4 : ((round (expm1R ((-1 : ℚ) : ℝ) * 100) : ℤ) : ℝ) < 0 := by
      exact_mod_cast h3
    unfold roundTo2R
    exact div_neg_of_neg_of_pos h4 (by norm_num)

end DSS
